import Mathlib

set_option maxHeartbeats 1000000

/-!
Verification of the hyacinth Clio Manage HTTP client
(src/hyacinth/session.py, src/hyacinth/async_session.py).

The embedding models the request executor (the ratelimit wrapper applied to
get/post/patch/delete_resource), the pagination traversal, the region
selection, and the document upload orchestration. HTTP transports, the S3
fetch, and the base64+utf8 decode primitive are oracle parameters; everything
else is translated from the Python source. Header lookup is modelled as exact
key association (the code always uses the canonical header names).
-/

/-- Python dict.get / header lookup on an association list, first match;
none when the key is absent. -/
def hget (hs : List (String × String)) (k : String) : Option String :=
  (hs.find? (fun p => p.1 == k)).map (fun p => p.2)

/-- Python substring test: the expression sub in s for strings. -/
def containsSub (s sub : String) : Bool :=
  (List.range (s.data.length + 1)).any (fun i => sub.data.isPrefixOf (s.data.drop i))

/-- Python dict assignment d[k] = v on an association list without duplicate
keys: overwrite in place when the key is present, append otherwise. -/
def dictSet : List (String × String) → String → String → List (String × String)
  | [], k, v => [(k, v)]
  | p :: t, k, v => if p.1 == k then (k, v) :: t else p :: dictSet t k v

/-- Decimal digit-string value; none on an empty or non-digit string. -/
def pyDigits? : List Char → Option Nat
  | [] => none
  | cs =>
    if cs.all Char.isDigit then
      some (cs.foldl (fun n c => n * 10 + (c.toNat - 48)) 0)
    else none

/-- Python int(s) on an optionally sign-prefixed decimal string (as used on
the Retry-After header value); none models the ValueError raised on a
malformed string. -/
def pyIntOfString (s : String) : Option Int :=
  match s.data with
  | '-' :: rest => (pyDigits? rest).map (fun n => -(n : Int))
  | cs => (pyDigits? cs).map (fun n => (n : Int))

/-- Python str.lower() restricted to its ASCII behaviour (region codes are
ASCII): every character is lowercased individually. -/
def pyLower (s : String) : String :=
  ⟨s.data.map Char.toLower⟩

/-! Region URLs, from the module-level constants of session.py and
async_session.py. -/

def CLIO_BASE_URL_US : String := "https://app.clio.com"
def CLIO_BASE_URL_AU : String := "https://au.app.clio.com"
def CLIO_BASE_URL_CA : String := "https://ca.app.clio.com"
def CLIO_BASE_URL_EU : String := "https://eu.app.clio.com"

def CLIO_API_BASE_URL_US : String := CLIO_BASE_URL_US ++ "/api/v4"
def CLIO_API_BASE_URL_AU : String := CLIO_BASE_URL_AU ++ "/api/v4"
def CLIO_API_BASE_URL_CA : String := CLIO_BASE_URL_CA ++ "/api/v4"
def CLIO_API_BASE_URL_EU : String := CLIO_BASE_URL_EU ++ "/api/v4"

/-- Region branch of Session.__init__ (session.py lines 86-105) and
AsyncSession.__init__ (async_session.py lines 125-144): the region string is
lowercased, matched against us/ca/au/eu, and anything else falls back to the
US pair. Returns (base_url, api_base_url). -/
def regionBaseUrls (region : String) : String × String :=
  let r := pyLower region
  if r = "us" then (CLIO_BASE_URL_US, CLIO_API_BASE_URL_US)
  else if r = "ca" then (CLIO_BASE_URL_CA, CLIO_API_BASE_URL_CA)
  else if r = "au" then (CLIO_BASE_URL_AU, CLIO_API_BASE_URL_AU)
  else if r = "eu" then (CLIO_BASE_URL_EU, CLIO_API_BASE_URL_EU)
  else (CLIO_BASE_URL_US, CLIO_API_BASE_URL_US)

/-- Session.make_url / AsyncSession.make_url called on an instance whose
api_base_url is the first argument. -/
def make_url (api_base_url path : String) : String :=
  api_base_url ++ "/" ++ path ++ ".json"

/-! Request and response model shared by the sync and async executors. -/

/-- Parsed JSON document as far as the wrapper code inspects it: an opaque
identity plus the two top-level fields read by the async legacy-payload check.
Python json.get("metadata") is falsy both when the key is absent and when the
dict is empty, so metadata is a plain association list with [] for both. -/
structure JsonDoc where
  id : Nat
  metadata : List (String × String)
  dataField : Option String
deriving DecidableEq

/-- HTTP response as far as the wrapper code inspects it. The json field is
the value resp.json() would parse; content is the raw byte string. -/
structure Resp where
  statusCode : Nat
  headers : List (String × String)
  content : List Nat
  json : JsonDoc
  isRedirect : Bool
deriving DecidableEq

instance : Inhabited Resp :=
  ⟨{ statusCode := 0, headers := [], content := [], json := ⟨0, [], none⟩, isRedirect := false }⟩

/-- Python-level exceptions and the HTTP status error raised by
raise_for_status (carrying status and body). -/
inductive PyError where
  | typeError
  | valueError
  | attributeError
  | keyError
  | httpStatusError (status : Nat) (content : List Nat)
deriving DecidableEq

/-- Value returned by a wrapped resource operation: None, parsed JSON, or raw
bytes. -/
inductive SyncOut where
  | noneVal
  | json (j : JsonDoc)
  | bytes (b : List Nat)
deriving DecidableEq

/-- Observable effects of one executor run: a call of the wrapped request
function, a sleep of so many seconds, the unauthenticated S3 fetch, or the
recursive get_resource on a non-S3 redirect target. -/
inductive Ev where
  | call
  | sleep (seconds : Int)
  | s3get (url : String)
  | innerGet (url : String)
deriving DecidableEq

deriving instance DecidableEq for Except

/-- Result of one executor run: events in order, the rate-limit budget write
performed by update_ratelimits (none when it never ran or the feature is
off), and the returned value or raised exception. -/
structure SyncRun where
  events : List Ev
  budget : Option (Option String × Option String)
  result : Except PyError SyncOut
deriving DecidableEq

/-- update_ratelimits (session.py lines 127-133, async_session.py lines
173-179): when the feature is enabled both counters are overwritten from the
response headers. -/
def updateRatelimits (rl : Bool) (resp : Resp) : Option (Option String × Option String) :=
  if rl then
    some (hget resp.headers "X-RateLimit-Limit", hget resp.headers "X-RateLimit-Remaining")
  else none

/-- Decode step ending the sync ratelimit wrapper (session.py lines 52-60):
empty content gives None; otherwise the membership test on
resp.headers.get("Content-Type") raises TypeError when the header is absent,
else parsed JSON or raw content. -/
def syncDecode (resp : Resp) : Except PyError SyncOut :=
  if resp.content = [] then .ok .noneVal
  else
    match hget resp.headers "Content-Type" with
    | none => .error .typeError
    | some ct =>
      if containsSub ct "application/json" then .ok (.json resp.json)
      else .ok (.bytes resp.content)

/-- Steps of the sync wrapper following the 429 branch: update_ratelimits then
decode. -/
def syncFinish (rl : Bool) (evs : List Ev) (resp : Resp) : SyncRun :=
  { events := evs, budget := updateRatelimits rl resp, result := syncDecode resp }

/-- The sync ratelimit wrapper (session.py lines 32-62) run against a scripted
transport f giving the response to the k-th invocation of the wrapped
function. On a 429 with the feature enabled it sleeps int(Retry-After) and
resends once; note the elif: raise_for_status is only consulted when the 429
branch was NOT taken (requests raises for 4xx/5xx). -/
def syncExec (rl rfs : Bool) (f : Nat → Resp) : SyncRun :=
  let r0 := f 0
  if r0.statusCode = 429 ∧ rl = true then
    match hget r0.headers "Retry-After" with
    | none => { events := [.call], budget := none, result := .error .typeError }
    | some s =>
      match pyIntOfString s with
      | none => { events := [.call], budget := none, result := .error .valueError }
      | some n => syncFinish rl [.call, .sleep n, .call] (f 1)
  else if rfs = true ∧ 400 ≤ r0.statusCode ∧ r0.statusCode < 600 then
    { events := [.call], budget := none, result := .error (.httpStatusError r0.statusCode r0.content) }
  else syncFinish rl [.call] r0

/-! Async executor (the ratelimit wrapper of async_session.py lines 35-101). -/

/-- Environment of the async wrapper: the wrapped request function by call
index, the body returned by the unauthenticated S3 fetch, the decoded result
of the recursive get_resource on a non-S3 redirect, and the
base64-then-utf8 decode primitive applied to json.get("data") (none models
any exception raised while decoding, including data being absent). -/
structure AsyncEnv where
  f : Nat → Resp
  s3body : String → List Nat
  getRes : String → Except PyError SyncOut
  b64utf8 : Option String → Option String

/-- Decode step ending the async wrapper (async_session.py lines 91-99):
status 204 gives None; otherwise the membership test on
resp.headers.get("Content-Type") raises TypeError when the header is absent,
else parsed JSON or raw content. -/
def asyncDecode (resp : Resp) : Except PyError SyncOut :=
  if resp.statusCode = 204 then .ok .noneVal
  else
    match hget resp.headers "Content-Type" with
    | none => .error .typeError
    | some ct =>
      if containsSub ct "application/json" then .ok (.json resp.json)
      else .ok (.bytes resp.content)

/-- Tail of the async wrapper (lines 83-99): strict-status check (httpx
raise_for_status raises for any status outside 2xx), update_ratelimits, then
decode. -/
def asyncTail (rl rfs : Bool) (evs : List Ev) (resp : Resp) : SyncRun :=
  if rfs = true ∧ ¬(200 ≤ resp.statusCode ∧ resp.statusCode < 300) then
    { events := evs, budget := none, result := .error (.httpStatusError resp.statusCode resp.content) }
  else
    { events := evs, budget := updateRatelimits rl resp, result := asyncDecode resp }

/-- Legacy rate-limit workaround (async_session.py lines 64-81). The source
nests three ifs with no effects in between; they are flattened into one
conjunction here: the Content-Type gate defaults to an empty list (so an
absent header is just False), json.get("metadata") must be truthy, and
metadata.encodingDecoded must equal "text/plain". A successful decode whose
text contains the marker sleeps 60 seconds and resends once (call index k);
a decode failure is logged and the original response is used. -/
def asyncLegacy (rl rfs : Bool) (env : AsyncEnv) (evs : List Ev) (k : Nat) (resp : Resp) : SyncRun :=
  let gate :=
    match hget resp.headers "Content-Type" with
    | none => false
    | some ct => containsSub ct "application/json"
  if gate = true ∧ resp.json.metadata ≠ [] ∧
      hget resp.json.metadata "encodingDecoded" = some "text/plain" then
    match env.b64utf8 resp.json.dataField with
    | some ds =>
      if containsSub ds "RateLimited" then
        asyncTail rl rfs (evs ++ [.sleep 60, .call]) (env.f k)
      else asyncTail rl rfs evs resp
    | none => asyncTail rl rfs evs resp
  else asyncTail rl rfs evs resp

/-- Redirect handling (async_session.py lines 52-62). An S3 redirect target is
fetched unauthenticated and its raw body returned at once, bypassing the rest
of the wrapper. A non-S3 redirect re-enters get_resource, whose decoded
result is then bound to resp: the next attribute access on it
(resp.headers in the legacy check) raises AttributeError because the decoded
value is a dict, bytes, or None rather than a response object. -/
def asyncRedirect (rl rfs : Bool) (env : AsyncEnv) (evs : List Ev) (k : Nat) (resp : Resp) : SyncRun :=
  if resp.isRedirect = true ∧ (hget resp.headers "location").isSome then
    match hget resp.headers "location" with
    | none => { events := evs, budget := none, result := .error .keyError }
    | some s3url =>
      if containsSub s3url "s3." then
        { events := evs ++ [.s3get s3url], budget := none
          , result := .ok (.bytes (env.s3body s3url)) }
      else
        match env.getRes s3url with
        | .error e => { events := evs ++ [.innerGet s3url], budget := none, result := .error e }
        | .ok _ => { events := evs ++ [.innerGet s3url], budget := none, result := .error .attributeError }
  else asyncLegacy rl rfs env evs k resp

/-- The async ratelimit wrapper (async_session.py lines 35-101) run against
its environment: 429 retry, then redirect handling, then the legacy
workaround, then strict-status, budget update, and decode. -/
def asyncExec (rl rfs : Bool) (env : AsyncEnv) : SyncRun :=
  let r0 := env.f 0
  if r0.statusCode = 429 ∧ rl = true then
    match hget r0.headers "Retry-After" with
    | none => { events := [.call], budget := none, result := .error .typeError }
    | some s =>
      match pyIntOfString s with
      | none => { events := [.call], budget := none, result := .error .valueError }
      | some n => asyncRedirect rl rfs env [.call, .sleep n, .call] 2 (env.f 1)
  else asyncRedirect rl rfs env [.call] 1 r0

/-- Query-parameter handling of Session.get_resource (session.py lines
136-143) and AsyncSession.get_resource (async_session.py lines 182-189): a
falsy params is replaced by an empty dict, then params["order"] is assigned
"id(asc)" unconditionally. -/
def getResourceParams (params : List (String × String)) : List (String × String) :=
  let params := if params.isEmpty then [] else params
  dictSet params "order" "id(asc)"

/-- Calling the plain function Session.make_url through the class with an
explicit argument list, as Session.post_contact, patch_contact and
delete_contact do (session.py lines 222-235). The parameters are
(self, path): any count other than two raises TypeError (missing or extra
positional argument); with two arguments the call sites would bind a string
to self, whose api_base_url attribute access raises AttributeError. -/
def call_Session_make_url (args : List String) : Except PyError String :=
  match args with
  | [_, _] => .error .attributeError
  | _ => .error .typeError

/-- Session.post_contact (session.py lines 222-225): the URL is built with
Session.make_url("contacts") on the class; only if that succeeded would
post_resource run through the executor. -/
def post_contact (rl rfs : Bool) (f : Nat → Resp) (_body : JsonDoc) : SyncRun :=
  match call_Session_make_url ["contacts"] with
  | .error e => { events := [], budget := none, result := .error e }
  | .ok _ => syncExec rl rfs f

/-- Session.patch_contact (session.py lines 227-230). -/
def patch_contact (rl rfs : Bool) (f : Nat → Resp) (id : Nat) (_body : JsonDoc) : SyncRun :=
  match call_Session_make_url ["contacts/" ++ toString id] with
  | .error e => { events := [], budget := none, result := .error e }
  | .ok _ => syncExec rl rfs f

/-- Session.delete_contact (session.py lines 232-235). -/
def delete_contact (rl rfs : Bool) (f : Nat → Resp) (id : Nat) : SyncRun :=
  match call_Session_make_url ["contacts/" ++ toString id] with
  | .error e => { events := [], budget := none, result := .error e }
  | .ok _ => syncExec rl rfs f

/-! Pagination (session.py lines 160-185, async_session.py lines 206-222).
The per-page GET is abstracted as a server oracle mapping a URL (a natural
number) to the decoded page envelope; each oracle consultation is one page
GET request. Generators are modelled with a fuel bound on loop iterations;
finished = false means the fuel ran out with the generator still running, so
a run that is unfinished at every fuel never terminates. -/

/-- Decoded page envelope: the data array (items are opaque naturals) and
meta.paging, where none models an absent paging object and some none a
paging object without a next link. -/
structure Page where
  data : List Nat
  paging : Option (Option Nat)
deriving DecidableEq

/-- Next URL extraction, as written in both traversals: absent paging or an
absent next key both give no next page. -/
def nextUrl (p : Page) : Option Nat :=
  match p.paging with
  | some pg => pg
  | none => none

/-- Outcome of running a traversal generator under a fuel bound: the items
yielded so far, the page requests made so far, and whether the generator
finished. -/
structure TravOut where
  items : List Nat
  reqs : Nat
  finished : Bool
deriving DecidableEq

/-- AsyncSession.get_autopaginated_resource (async_session.py lines 213-222):
while url is set, fetch the page, yield its data, and take the next URL from
meta.paging. -/
def asyncTraverse (server : Nat → Page) : Nat → Option Nat → TravOut
  | _, none => { items := [], reqs := 0, finished := true }
  | 0, some _ => { items := [], reqs := 0, finished := false }
  | fuel + 1, some url =>
    let p := server url
    let rest := asyncTraverse server fuel (nextUrl p)
    { items := p.data ++ rest.items, reqs := rest.reqs + 1, finished := rest.finished }

mutual

/-- Session.get_autopaginated_resource (session.py lines 167-185) with
autopaginate enabled, so the recursive get_paginated_resource call inside the
while loop is again this generator. The page is fetched, its data yielded,
next_url computed once — and then the while loop repeatedly runs
yield from get_paginated_resource(next_url) without ever updating next_url. -/
def syncAutoGen (server : Nat → Page) : Nat → Nat → TravOut
  | 0, _ => { items := [], reqs := 0, finished := false }
  | fuel + 1, url =>
    let p := server url
    match nextUrl p with
    | none => { items := p.data, reqs := 1, finished := true }
    | some nu =>
      let w := syncAutoWhile server fuel nu
      { items := p.data ++ w.items, reqs := w.reqs + 1, finished := w.finished }

/-- The while next_url loop of Session.get_autopaginated_resource: each
iteration exhausts a fresh recursive traversal of the same unchanged
next_url, then tests the unchanged condition again. -/
def syncAutoWhile (server : Nat → Page) : Nat → Nat → TravOut
  | 0, _ => { items := [], reqs := 0, finished := false }
  | fuel + 1, nu =>
    let inner := syncAutoGen server fuel nu
    if inner.finished then
      let rest := syncAutoWhile server fuel nu
      { items := inner.items ++ rest.items, reqs := inner.reqs + rest.reqs
        , finished := rest.finished }
    else { items := inner.items, reqs := inner.reqs, finished := false }

end

/-- An N-page chained collection: page i holds the i-th data array and links
to page i+1, with the last page carrying a paging object without next. -/
def chainPage (datas : List (List Nat)) (i : Nat) : Page :=
  { data := datas.getD i []
    , paging := if i + 1 < datas.length then some (some (i + 1)) else some none }

/-! Document upload (session.py lines 343-389 and 444-514, async_session.py
lines 229-292 and 451-527). The create POST, the per-part PUT transport, and
the finalize PATCH are oracles; chunking, manifest building, header-map
construction, and the control flow are translated from the source. -/

/-- Fixed part size threshold, 100 megabytes in bytes (session.py line 26,
async_session.py line 29). -/
def PART_SIZE : Nat := 104857600

/-- Iteration counts of Python range(start, stop, step) for positive step. -/
def pyRangeAux (step : Nat) : Nat → Nat → List Nat
  | 0, _ => []
  | c + 1, i => i :: pyRangeAux step c (i + step)

/-- Python range(start, stop, step) for positive step. -/
def pyRange (start stop step : Nat) : List Nat :=
  pyRangeAux step ((stop - start + step - 1) / step) start

/-- Chunking loop of upload_multipart_document: for i in
range(0, file_size, PART_SIZE), record (start_offset, end_offset, bytes read)
where end_offset = min(file_size, i + PART_SIZE) and the sequential reads
yield exactly the slice of the file between the offsets. -/
def chunkFile (file : List Nat) : List (Nat × Nat × List Nat) :=
  (pyRange 0 file.length PART_SIZE).map (fun i =>
    let endOff := min file.length (i + PART_SIZE)
    (i, endOff, (file.drop i).take (endOff - i)))

/-- Manifest POSTed with the document creation request: enumerate(parts,
start=1) paired with each part content length. -/
def manifestOf (file : List Nat) : List (Nat × Nat) :=
  (chunkFile file).enum.map (fun p => (p.1 + 1, p.2.2.2.length))

/-- Building headers_map from the put_headers list of {name, value} pairs. -/
def headersMapOf (hs : List (String × String)) : List (String × String) :=
  hs.foldl (fun m p => dictSet m p.1 p.2) []

/-- One entry of latest_document_version.multiparts in the creation
response. -/
structure MPart where
  part_number : Nat
  put_url : String
  put_headers : List (String × String)
deriving DecidableEq

instance : Inhabited MPart := ⟨{ part_number := 0, put_url := "", put_headers := [] }⟩

/-- Fields of the document-creation response consumed by the upload code. -/
structure CreateResp where
  docId : Nat
  uuid : String
  multiparts : List MPart

/-- Upload failures: a failed PUT (any transport error), or the IndexError
raised by parts[part_number - 1] when the server names a part number out of
range of the local chunks. -/
inductive UpError where
  | netError (msg : String)
  | indexError
deriving DecidableEq

/-- Observable upload effects: a progress_update call, the document-creation
POST (with the multipart manifest, or none on the single-shot path), a part
PUT with its URL, headers and body, and the finalize PATCH referencing the
document id and version uuid. -/
inductive UpEv where
  | progress
  | postDoc (manifest : Option (List (Nat × Nat)))
  | put (url : String) (headers : List (String × String)) (body : List Nat)
  | patchDoc (docId : Nat) (uuid : String)
deriving DecidableEq

/-- Upload environment: the creation POST (a function of the manifest), the
per-part PUT transport, and the decoded finalize PATCH response. -/
structure UploadEnv where
  create : List (Nat × Nat) → CreateResp
  putRes : MPart → List Nat → Except UpError Unit
  patchRes : Except UpError SyncOut

/-- The PUT event the loop issues for one server part descriptor. -/
def putEvOf (parts : List (Nat × Nat × List Nat)) (mp : MPart) : UpEv :=
  .put mp.put_url (headersMapOf mp.put_headers) ((parts.getD (mp.part_number - 1) (0, 0, [])).2.2)

/-- Per-part loop of upload_multipart_document followed by the finalize
PATCH: for each server part, build headers_map, index the local chunks with
part_number - 1, PUT the bytes, and call progress_update; the first failed
PUT aborts the whole call, and only after every part succeeded is the
document PATCHed as fully_uploaded. -/
def uploadLoop (parts : List (Nat × Nat × List Nat)) (env : UploadEnv) (cr : CreateResp)
    (evs : List UpEv) : List MPart → List UpEv × Except UpError SyncOut
  | [] => (evs ++ [.patchDoc cr.docId cr.uuid], env.patchRes)
  | mp :: rest =>
    if mp.part_number - 1 < parts.length then
      let dataPart := (parts.getD (mp.part_number - 1) (0, 0, [])).2.2
      match env.putRes mp dataPart with
      | .ok _ =>
        uploadLoop parts env cr
          (evs ++ [.put mp.put_url (headersMapOf mp.put_headers) dataPart, .progress]) rest
      | .error e => (evs ++ [.put mp.put_url (headersMapOf mp.put_headers) dataPart], .error e)
    else (evs, .error .indexError)

/-- Session.upload_multipart_document (session.py lines 444-514) and the
structurally identical AsyncSession.upload_multipart_document
(async_session.py lines 451-527): chunk the file (one progress_update per
chunk read), POST the manifest, PUT each server-listed part, then PATCH the
document as fully uploaded. -/
def uploadMultipartDocument (file : List Nat) (env : UploadEnv) : List UpEv × Except UpError SyncOut :=
  let parts := chunkFile file
  let cr := env.create (manifestOf file)
  uploadLoop parts env cr
    ((parts.map (fun _ => UpEv.progress)) ++ [.postDoc (some (manifestOf file))]) cr.multiparts

/-- Fields of the single-shot creation response consumed by upload_document. -/
structure SingleCreate where
  docId : Nat
  uuid : String
  put_url : String
  put_headers : List (String × String)

/-- Session.upload_document (session.py lines 343-389): POST the document
creation request, PUT the entire file body to the returned pre-signed target,
then PATCH the document as fully uploaded. No size comparison occurs: the
whole body is sent in one PUT whatever the file size. -/
def uploadDocument (file : List Nat) (sc : SingleCreate)
    (putResult : Except UpError Unit) (patchRes : Except UpError SyncOut) :
    List UpEv × Except UpError SyncOut :=
  match putResult with
  | .error e => ([.postDoc none, .put sc.put_url (headersMapOf sc.put_headers) file], .error e)
  | .ok _ =>
    ([.postDoc none, .put sc.put_url (headersMapOf sc.put_headers) file,
      .patchDoc sc.docId sc.uuid], patchRes)

/-! Helper lemmas. -/

theorem hget_cons (p : String × String) (d : List (String × String)) (k : String) :
    hget (p :: d) k = if p.1 == k then some p.2 else hget d k := by
  by_cases h : p.1 == k <;> simp [hget, List.find?_cons, h]

theorem hget_dictSet_self (d : List (String × String)) (k v : String) :
    hget (dictSet d k v) k = some v := by
  induction d with
  | nil => simp [dictSet, hget_cons]
  | cons p t ih =>
    by_cases h : p.1 == k
    · simp [dictSet, h, hget_cons]
    · simp [dictSet, h, hget_cons, ih]

theorem hget_dictSet_other (d : List (String × String)) (k v k' : String) (h : k' ≠ k) :
    hget (dictSet d k v) k' = hget d k' := by
  induction d with
  | nil =>
    simp [dictSet, hget_cons, hget]
    intro hkk
    exact absurd hkk.symm h
  | cons p t ih =>
    by_cases hp : p.1 == k
    · have hp2 : p.1 = k := by simpa using hp
      rw [dictSet]
      simp only [hp, if_true]
      rw [hget_cons, hget_cons]
      have hk : (k == k') = false := by
        simp [BEq.beq]
        intro hkk
        exact absurd hkk.symm h
      have hk2 : (p.1 == k') = false := by
        rw [hp2]; exact hk
      simp [hk, hk2]
    · rw [dictSet]
      simp only [hp, if_false, Bool.false_eq_true]
      rw [hget_cons, hget_cons, ih]

theorem if_isEmpty_self (params : List (String × String)) :
    (if params.isEmpty then ([] : List (String × String)) else params) = params := by
  cases params <;> simp

/-! Claim theorems. -/

/-- Claim C10: for every session construction, the region argument is matched
case-insensitively against US, CA, AU and EU, any unrecognized region falls
back to the US endpoints, and (base_url, api_base_url) is always exactly one
of the four regional pairs. -/
theorem C10_region_selection :
    (∀ r1 r2 : String, pyLower r1 = pyLower r2 → regionBaseUrls r1 = regionBaseUrls r2) ∧
    (∀ r : String,
      regionBaseUrls r ∈ [(CLIO_BASE_URL_US, CLIO_API_BASE_URL_US),
        (CLIO_BASE_URL_CA, CLIO_API_BASE_URL_CA),
        (CLIO_BASE_URL_AU, CLIO_API_BASE_URL_AU),
        (CLIO_BASE_URL_EU, CLIO_API_BASE_URL_EU)]) ∧
    (∀ r : String, pyLower r ∉ (["us", "ca", "au", "eu"] : List String) →
      regionBaseUrls r = (CLIO_BASE_URL_US, CLIO_API_BASE_URL_US)) := by
  refine ⟨?_, ?_, ?_⟩
  · intro r1 r2 h
    simp only [regionBaseUrls, h]
  · intro r
    simp only [regionBaseUrls]
    split_ifs <;> simp
  · intro r h
    simp only [List.mem_cons, List.not_mem_nil, or_false, not_or] at h
    simp only [regionBaseUrls, h.1, h.2.1, h.2.2.1, h.2.2.2, if_false]

/-- Witness for C10: the region JP (the repository test case) falls back to
the US pair, and region matching ignores case. -/
theorem C10_witness :
    regionBaseUrls "JP" = (CLIO_BASE_URL_US, CLIO_API_BASE_URL_US) ∧
    regionBaseUrls "Ca" = regionBaseUrls "cA" :=
  ⟨C10_region_selection.2.2 "JP" (by decide), C10_region_selection.1 "Ca" "cA" (by decide)⟩

/-- Claim C8: for every argument values, post_contact, patch_contact and
delete_contact of the synchronous Session raise TypeError before any HTTP
request is issued, because each calls Session.make_url on the class with only
the path argument. -/
theorem C8_contact_type_error (rl rfs : Bool) (f : Nat → Resp) (body : JsonDoc) (id : Nat) :
    post_contact rl rfs f body = { events := [], budget := none, result := .error .typeError } ∧
    patch_contact rl rfs f id body = { events := [], budget := none, result := .error .typeError } ∧
    delete_contact rl rfs f id = { events := [], budget := none, result := .error .typeError } :=
  ⟨rfl, rfl, rfl⟩

/-- Counterexample to claim C6 as stated: a caller-supplied ordering
parameter is NOT kept — get_resource overwrites it with the default. -/
theorem C6_counterexample :
    getResourceParams [("order", "date(desc)")] = [("order", "id(asc)")] ∧
    hget (getResourceParams [("order", "date(desc)")]) "order" = some "id(asc)" := by
  constructor <;> rfl

/-- Claim C6 amended: every get_resource call sends order=id(asc) — the
default is assigned unconditionally, overwriting any caller-supplied order
value — while every other caller-supplied parameter is preserved. -/
theorem C6_order_param (params : List (String × String)) (k : String) (hk : k ≠ "order") :
    hget (getResourceParams params) "order" = some "id(asc)" ∧
    hget (getResourceParams params) k = hget params k := by
  unfold getResourceParams
  rw [if_isEmpty_self]
  exact ⟨hget_dictSet_self params "order" "id(asc)",
    hget_dictSet_other params "order" "id(asc)" k hk⟩

/-- Witness for C6: a caller passing fields=id keeps that parameter and gets
the ascending-id ordering added. -/
theorem C6_witness :
    hget (getResourceParams [("fields", "id")]) "order" = some "id(asc)" ∧
    hget (getResourceParams [("fields", "id")]) "fields" = hget [("fields", "id")] "fields" :=
  C6_order_param [("fields", "id")] "fields" (by decide)

/-- Claim C9: a response with content (sync) or a status other than 204
(async) but no Content-Type header makes the decode step raise TypeError (the
membership test runs on None) instead of returning raw bytes. -/
theorem C9_missing_content_type :
    (∀ resp : Resp, resp.content ≠ [] → hget resp.headers "Content-Type" = none →
      syncDecode resp = .error .typeError) ∧
    (∀ resp : Resp, resp.statusCode ≠ 204 → hget resp.headers "Content-Type" = none →
      asyncDecode resp = .error .typeError) := by
  constructor
  · intro resp h1 h2
    simp [syncDecode, h1, h2]
  · intro resp h1 h2
    simp [asyncDecode, h1, h2]

/-- Witness for C9: concrete headerless responses hit the TypeError in both
decode steps. -/
theorem C9_witness :
    syncDecode ⟨200, [], [1], ⟨0, [], none⟩, false⟩ = .error .typeError ∧
    asyncDecode ⟨200, [], [], ⟨0, [], none⟩, false⟩ = .error .typeError :=
  ⟨C9_missing_content_type.1 _ (by decide) rfl, C9_missing_content_type.2 _ (by decide) rfl⟩

/-- Claim C2: with rate-limiting enabled, a 429 first response whose
Retry-After header holds integer n, followed by a 200 resend, makes both
executors sleep exactly n seconds before resending the identical request
exactly once, and return the decoded second response. -/
theorem C2_ratelimit_retry (rfs : Bool) (f : Nat → Resp) (env : AsyncEnv)
    (s : String) (n : Int) (r1 : Resp) (ct : String)
    (hf1 : f 1 = r1) (he0 : env.f 0 = f 0) (he1 : env.f 1 = r1)
    (h429 : (f 0).statusCode = 429)
    (hra : hget (f 0).headers "Retry-After" = some s)
    (hn : pyIntOfString s = some n)
    (hst : r1.statusCode = 200)
    (hrd : r1.isRedirect = false)
    (hct : hget r1.headers "Content-Type" = some ct)
    (hctj : containsSub ct "application/json" = true)
    (hmeta : r1.json.metadata = [])
    (hcont : r1.content ≠ []) :
    syncExec true rfs f =
      { events := [.call, .sleep n, .call]
        , budget := some (hget r1.headers "X-RateLimit-Limit", hget r1.headers "X-RateLimit-Remaining")
        , result := .ok (.json r1.json) } ∧
    asyncExec true rfs env =
      { events := [.call, .sleep n, .call]
        , budget := some (hget r1.headers "X-RateLimit-Limit", hget r1.headers "X-RateLimit-Remaining")
        , result := .ok (.json r1.json) } := by
  constructor
  · simp [syncExec, h429, hra, hn, hf1, syncFinish, updateRatelimits, syncDecode,
      hcont, hct, hctj]
  · simp [asyncExec, he0, he1, h429, hra, hn, asyncRedirect, hrd, asyncLegacy, hct,
      asyncTail, hst, hmeta, updateRatelimits, asyncDecode, hctj]

/-- Witness for C2: a concrete 429 (Retry-After 3) followed by a 200 JSON
response, through both executors. -/
theorem C2_witness :
    syncExec true false (fun k => if k = 0
        then ⟨429, [("Retry-After", "3")], [], ⟨0, [], none⟩, false⟩
        else ⟨200, [("Content-Type", "application/json"), ("X-RateLimit-Limit", "100")], [1], ⟨7, [], none⟩, false⟩) =
      { events := [.call, .sleep 3, .call], budget := some (some "100", none)
        , result := .ok (.json ⟨7, [], none⟩) } ∧
    asyncExec true false
      ⟨(fun k => if k = 0
        then ⟨429, [("Retry-After", "3")], [], ⟨0, [], none⟩, false⟩
        else ⟨200, [("Content-Type", "application/json"), ("X-RateLimit-Limit", "100")], [1], ⟨7, [], none⟩, false⟩),
        (fun _ => []), (fun _ => .ok .noneVal), (fun _ => none)⟩ =
      { events := [.call, .sleep 3, .call], budget := some (some "100", none)
        , result := .ok (.json ⟨7, [], none⟩) } :=
  C2_ratelimit_retry false _ _ "3" 3
    ⟨200, [("Content-Type", "application/json"), ("X-RateLimit-Limit", "100")], [1], ⟨7, [], none⟩, false⟩
    "application/json" rfl rfl rfl rfl rfl rfl rfl rfl rfl (by decide) rfl (by decide)

/-- Claim C5 at the failing input: after a 429 retry that again returns 429,
with rate limiting and strict-error mode both enabled, the async executor
escalates an HTTP status error carrying status and body, but the sync
executor (whose elif skips raise_for_status whenever the retry branch ran)
returns the decoded second 429 body as a normal result. -/
theorem C5_second_429 :
    syncExec true true (fun k => if k = 0
        then ⟨429, [("Retry-After", "1"), ("Content-Type", "application/json")], [2], ⟨1, [], none⟩, false⟩
        else ⟨429, [("Content-Type", "application/json")], [3], ⟨9, [], none⟩, false⟩) =
      { events := [.call, .sleep 1, .call], budget := some (none, none)
        , result := .ok (.json ⟨9, [], none⟩) } ∧
    asyncExec true true
      ⟨(fun k => if k = 0
        then ⟨429, [("Retry-After", "1"), ("Content-Type", "application/json")], [2], ⟨1, [], none⟩, false⟩
        else ⟨429, [("Content-Type", "application/json")], [3], ⟨9, [], none⟩, false⟩),
        (fun _ => []), (fun _ => .ok .noneVal), (fun _ => none)⟩ =
      { events := [.call, .sleep 1, .call], budget := none
        , result := .error (.httpStatusError 429 [3]) } := by
  constructor <;> rfl

/-- Counterexample to claim C7 as stated: a request executed by the sync
executor whose response carries the legacy base64 wrapper (the decoded
payload UmF0ZUxpbWl0ZWQ= is exactly RateLimited) triggers no wait and no
resend at all — the sync wrapper has no legacy-payload handling and returns
the parsed payload as an ordinary JSON result after a single call. -/
theorem C7_counterexample :
    syncExec true true (fun _ =>
        ⟨200, [("Content-Type", "application/json")], [5],
          ⟨3, [("encodingDecoded", "text/plain")], some "UmF0ZUxpbWl0ZWQ="⟩, false⟩) =
      { events := [.call], budget := some (none, none)
        , result := .ok (.json ⟨3, [("encodingDecoded", "text/plain")], some "UmF0ZUxpbWl0ZWQ="⟩) } := by
  rfl

/-- Claim C7 amended: the legacy base64 workaround lives in the async
executor only. There, a structured response carrying the legacy wrapper
(metadata.encodingDecoded = text/plain) whose decoded payload contains the
rate-limit marker triggers exactly one fixed 60-second wait and exactly one
resend, whatever the rest of the JSON holds; and a decode failure is
non-fatal — no retry happens and the original response is decoded as-is. The
sync executor performs no legacy handling (see the counterexample). -/
theorem C7_legacy_workaround :
    (∀ (rl rfs : Bool) (env : AsyncEnv) (ct ds : String) (r1 : Resp),
      (env.f 0).statusCode = 200 → (env.f 0).isRedirect = false →
      hget (env.f 0).headers "Content-Type" = some ct →
      containsSub ct "application/json" = true →
      (env.f 0).json.metadata ≠ [] →
      hget (env.f 0).json.metadata "encodingDecoded" = some "text/plain" →
      env.b64utf8 (env.f 0).json.dataField = some ds →
      containsSub ds "RateLimited" = true →
      env.f 1 = r1 → r1.statusCode = 200 →
      (asyncExec rl rfs env).events = [.call, .sleep 60, .call] ∧
      (asyncExec rl rfs env).result = asyncDecode r1) ∧
    (∀ (rl rfs : Bool) (env : AsyncEnv) (ct : String),
      (env.f 0).statusCode = 200 → (env.f 0).isRedirect = false →
      hget (env.f 0).headers "Content-Type" = some ct →
      containsSub ct "application/json" = true →
      (env.f 0).json.metadata ≠ [] →
      hget (env.f 0).json.metadata "encodingDecoded" = some "text/plain" →
      env.b64utf8 (env.f 0).json.dataField = none →
      (asyncExec rl rfs env).events = [.call] ∧
      (asyncExec rl rfs env).result = asyncDecode (env.f 0)) := by
  constructor
  · intro rl rfs env ct ds r1 h200 hrd hct hctj hmeta henc hdec hmark he1 hst1
    simp [asyncExec, h200, asyncRedirect, hrd, asyncLegacy, hct, hctj, hmeta, henc,
      hdec, hmark, he1, asyncTail, hst1]
  · intro rl rfs env ct h200 hrd hct hctj hmeta henc hdec
    simp [asyncExec, h200, asyncRedirect, hrd, asyncLegacy, hct, hctj, hmeta, henc,
      hdec, asyncTail]

/-- Witness for C7: a concrete legacy payload whose decoded text contains the
marker (one 60-second wait, one resend), and a concrete decode failure (no
retry, original response decoded). -/
theorem C7_witness :
    ((asyncExec false false
      ⟨(fun k => if k = 0
        then ⟨200, [("Content-Type", "application/json")], [5],
          ⟨3, [("encodingDecoded", "text/plain")], some "notB64"⟩, false⟩
        else ⟨200, [("Content-Type", "application/json")], [9], ⟨11, [], none⟩, false⟩),
        (fun _ => []), (fun _ => .ok .noneVal),
        (fun _ => some "xxRateLimitedxx")⟩).events = [.call, .sleep 60, .call]) ∧
    ((asyncExec false false
      ⟨(fun _ => ⟨200, [("Content-Type", "application/json")], [5],
          ⟨3, [("encodingDecoded", "text/plain")], some "notB64"⟩, false⟩),
        (fun _ => []), (fun _ => .ok .noneVal),
        (fun _ => none)⟩).events = [.call]) :=
  ⟨(C7_legacy_workaround.1 false false
      ⟨(fun k => if k = 0
        then ⟨200, [("Content-Type", "application/json")], [5],
          ⟨3, [("encodingDecoded", "text/plain")], some "notB64"⟩, false⟩
        else ⟨200, [("Content-Type", "application/json")], [9], ⟨11, [], none⟩, false⟩),
        (fun _ => []), (fun _ => .ok .noneVal),
        (fun _ => some "xxRateLimitedxx")⟩
      "application/json" "xxRateLimitedxx"
      ⟨200, [("Content-Type", "application/json")], [9], ⟨11, [], none⟩, false⟩
      rfl rfl rfl (by decide) (by decide) rfl rfl (by decide) rfl rfl).1,
    (C7_legacy_workaround.2 false false
      ⟨(fun _ => ⟨200, [("Content-Type", "application/json")], [5],
          ⟨3, [("encodingDecoded", "text/plain")], some "notB64"⟩, false⟩),
        (fun _ => []), (fun _ => .ok .noneVal),
        (fun _ => none)⟩
      "application/json"
      rfl rfl rfl (by decide) (by decide) rfl rfl).1⟩

theorem drop_getD_cons (l : List (List Nat)) :
    ∀ k, k < l.length → l.drop k = l.getD k [] :: l.drop (k + 1) := by
  induction l with
  | nil => intro k hk; simp at hk
  | cons a t ih =>
    intro k hk
    cases k with
    | zero => simp
    | succ m =>
      have hm : m < t.length := by simpa using hk
      simpa using ih m hm

theorem asyncTraverse_chain (datas : List (List Nat)) :
    ∀ fuel k, k < datas.length → datas.length - k ≤ fuel →
    asyncTraverse (chainPage datas) fuel (some k) =
      { items := (datas.drop k).flatten, reqs := datas.length - k, finished := true } := by
  intro fuel
  induction fuel with
  | zero => intro k hk hf; omega
  | succ m ih =>
    intro k hk hf
    rw [asyncTraverse]
    by_cases h2 : k + 1 < datas.length
    · have hnext : nextUrl (chainPage datas k) = some (k + 1) := by
        simp [chainPage, nextUrl, h2]
      rw [hnext, ih (k + 1) h2 (by omega)]
      have hdrop := drop_getD_cons datas k hk
      simp [chainPage, hdrop]
      omega
    · have hnext : nextUrl (chainPage datas k) = none := by
        simp [chainPage, nextUrl, h2]
      rw [hnext]
      have hdrop := drop_getD_cons datas k hk
      have hnil : datas.drop (k + 1) = [] := List.drop_eq_nil_of_le (by omega)
      rw [asyncTraverse]
      simp [chainPage, hdrop, hnil]
      omega

/-- Claim C1 at the failing input: the async traversal of any chained N-page
collection yields the concatenation of all pages in order with exactly N page
requests and terminates; but the sync generator, whose while loop never
updates next_url, is unfinished at every fuel bound on a two-page collection
— it re-runs the traversal of pages two onward forever and never
terminates. -/
theorem C1_pagination :
    (∀ (d0 : List Nat) (rest : List (List Nat)),
      asyncTraverse (chainPage (d0 :: rest)) (d0 :: rest).length (some 0) =
        { items := (d0 :: rest).flatten, reqs := (d0 :: rest).length, finished := true }) ∧
    (∀ fuel : Nat, (syncAutoGen (chainPage [[1], [2]]) fuel 0).finished = false) := by
  constructor
  · intro d0 rest
    have h := asyncTraverse_chain (d0 :: rest) (d0 :: rest).length 0 (by simp) (by omega)
    simpa using h
  · have hwhile : ∀ fuel, (syncAutoWhile (chainPage [[1], [2]]) fuel 1).finished = false := by
      intro fuel
      induction fuel with
      | zero => rfl
      | succ m ih =>
        rw [syncAutoWhile]
        cases m with
        | zero => rfl
        | succ p =>
          have hinner : syncAutoGen (chainPage [[1], [2]]) (p + 1) 1 =
              { items := [2], reqs := 1, finished := true } := by
            rw [syncAutoGen]
            simp [chainPage, nextUrl]
          simp [hinner, ih]
    intro fuel
    cases fuel with
    | zero => rfl
    | succ m =>
      rw [syncAutoGen]
      simp [chainPage, nextUrl, hwhile m]

theorem uploadLoop_fail (parts : List (Nat × Nat × List Nat)) (env : UploadEnv)
    (cr : CreateResp) (e : UpError) :
    ∀ (k : Nat) (l : List MPart) (evs : List UpEv),
      k < l.length →
      (∀ j, j ≤ k → (l.getD j default).part_number - 1 < parts.length) →
      (∀ j, j < k → env.putRes (l.getD j default)
          ((parts.getD ((l.getD j default).part_number - 1) (0, 0, [])).2.2) = .ok ()) →
      env.putRes (l.getD k default)
          ((parts.getD ((l.getD k default).part_number - 1) (0, 0, [])).2.2) = .error e →
      uploadLoop parts env cr evs l =
        (evs ++ ((l.take k).map (fun mp => [putEvOf parts mp, .progress])).flatten
             ++ [putEvOf parts (l.getD k default)], .error e) := by
  intro k
  induction k with
  | zero =>
    intro l evs hk hidx hok hfail
    cases l with
    | nil => simp at hk
    | cons mp rest =>
      rw [uploadLoop]
      have hb : mp.part_number - 1 < parts.length := by simpa using hidx 0 (by omega)
      rw [if_pos hb]
      simp only [List.getD_cons_zero] at hfail
      simp only [hfail]
      simp [putEvOf]
  | succ m ih =>
    intro l evs hk hidx hok hfail
    cases l with
    | nil => simp at hk
    | cons mp rest =>
      rw [uploadLoop]
      have hb : mp.part_number - 1 < parts.length := by simpa using hidx 0 (by omega)
      rw [if_pos hb]
      have h0 : env.putRes mp ((parts.getD (mp.part_number - 1) (0, 0, [])).2.2) = .ok () := by
        simpa using hok 0 (by omega)
      simp only [h0]
      have hk2 : m < rest.length := by simpa using hk
      have hidx2 : ∀ j, j ≤ m → (rest.getD j default).part_number - 1 < parts.length := by
        intro j hj
        simpa using hidx (j + 1) (by omega)
      have hok2 : ∀ j, j < m → env.putRes (rest.getD j default)
          ((parts.getD ((rest.getD j default).part_number - 1) (0, 0, [])).2.2) = .ok () := by
        intro j hj
        simpa using hok (j + 1) (by omega)
      have hfail2 : env.putRes (rest.getD m default)
          ((parts.getD ((rest.getD m default).part_number - 1) (0, 0, [])).2.2) = .error e := by
        simpa using hfail
      rw [ih rest _ hk2 hidx2 hok2 hfail2]
      simp [putEvOf, List.append_assoc]

/-- Claim C3: when the PUT of some part fails (all earlier server-listed
parts having succeeded), the multipart upload stops at that part: the exact
event trace ends with the failing PUT, later parts are never attempted, the
finalize PATCH is never issued, and the error surfaces to the caller. -/
theorem C3_part_failure_aborts (file : List Nat) (env : UploadEnv) (k : Nat) (e : UpError)
    (hk : k < (env.create (manifestOf file)).multiparts.length)
    (hidx : ∀ j, j ≤ k →
      ((env.create (manifestOf file)).multiparts.getD j default).part_number - 1 <
        (chunkFile file).length)
    (hok : ∀ j, j < k →
      env.putRes ((env.create (manifestOf file)).multiparts.getD j default)
        (((chunkFile file).getD
          (((env.create (manifestOf file)).multiparts.getD j default).part_number - 1)
          (0, 0, [])).2.2) = .ok ())
    (hfail : env.putRes ((env.create (manifestOf file)).multiparts.getD k default)
        (((chunkFile file).getD
          (((env.create (manifestOf file)).multiparts.getD k default).part_number - 1)
          (0, 0, [])).2.2) = .error e) :
    uploadMultipartDocument file env =
      (((chunkFile file).map (fun _ => UpEv.progress)) ++ [.postDoc (some (manifestOf file))]
        ++ (((env.create (manifestOf file)).multiparts.take k).map
            (fun mp => [putEvOf (chunkFile file) mp, .progress])).flatten
        ++ [putEvOf (chunkFile file) ((env.create (manifestOf file)).multiparts.getD k default)],
       .error e) ∧
    (∀ d u, UpEv.patchDoc d u ∉ (uploadMultipartDocument file env).1) := by
  have heq : uploadMultipartDocument file env =
      (((chunkFile file).map (fun _ => UpEv.progress)) ++ [.postDoc (some (manifestOf file))]
        ++ (((env.create (manifestOf file)).multiparts.take k).map
            (fun mp => [putEvOf (chunkFile file) mp, .progress])).flatten
        ++ [putEvOf (chunkFile file) ((env.create (manifestOf file)).multiparts.getD k default)],
       .error e) := by
    rw [uploadMultipartDocument]
    exact uploadLoop_fail (chunkFile file) env (env.create (manifestOf file)) e k
      (env.create (manifestOf file)).multiparts
      (((chunkFile file).map (fun _ => UpEv.progress)) ++ [.postDoc (some (manifestOf file))])
      hk hidx hok hfail
  refine ⟨heq, ?_⟩
  intro d u
  rw [heq]
  simp only [putEvOf]
  simp only [List.mem_append, List.mem_flatten, List.mem_map, List.mem_singleton]
  intro hmem
  rcases hmem with ((h1 | h2) | h3) | h4
  · rcases h1 with ⟨a, _, ha⟩
    exact UpEv.noConfusion ha
  · exact UpEv.noConfusion h2
  · rcases h3 with ⟨l2, ⟨mp, _, hl2⟩, hin⟩
    subst hl2
    rcases List.mem_cons.1 hin with h | h
    · exact UpEv.noConfusion h
    · exact UpEv.noConfusion (List.mem_singleton.1 h)
  · exact UpEv.noConfusion h4

/-- Witness for C3: a three-part server listing where the second PUT fails —
the trace stops at that PUT, no finalize PATCH appears, and the error is
returned. -/
theorem C3_witness :
    uploadMultipartDocument [7, 8]
      ⟨(fun _ => ⟨5, "u", [⟨1, "a", []⟩, ⟨1, "b", []⟩, ⟨1, "c", []⟩]⟩),
        (fun mp _ => if mp.put_url == "b" then .error (.netError "boom") else .ok ()),
        .ok .noneVal⟩ =
      ([.progress, .postDoc (some [(1, 2)]), .put "a" [] [7, 8], .progress, .put "b" [] [7, 8]],
        .error (.netError "boom")) :=
  (C3_part_failure_aborts [7, 8]
      ⟨(fun _ => ⟨5, "u", [⟨1, "a", []⟩, ⟨1, "b", []⟩, ⟨1, "c", []⟩]⟩),
        (fun mp _ => if mp.put_url == "b" then .error (.netError "boom") else .ok ()),
        .ok .noneVal⟩ 1 (.netError "boom")
      (by decide)
      (fun j hj => by
        have h01 : j = 0 ∨ j = 1 := by omega
        rcases h01 with h | h <;> subst h <;> decide)
      (fun j hj => by
        have h0 : j = 0 := by omega
        subst h0
        decide)
      (by decide)).1

theorem chunkFile_exact_threshold (f : List Nat) (hlen : f.length = PART_SIZE) :
    chunkFile f = [(0, PART_SIZE, f)] := by
  rw [chunkFile, pyRange, hlen]
  norm_num [PART_SIZE, pyRangeAux]
  rw [hlen]
  norm_num [PART_SIZE]

theorem chunkFile_threshold_plus_one (g : List Nat) (hlen : g.length = PART_SIZE + 1) :
    chunkFile g = [(0, PART_SIZE, g.take PART_SIZE),
      (PART_SIZE, PART_SIZE + 1, (g.drop PART_SIZE).take 1)] := by
  rw [chunkFile, pyRange, hlen]
  norm_num [PART_SIZE, pyRangeAux]

/-- Counterexample to claim C4 as stated: an upload of a file of exactly
PART_SIZE + 1 bytes through upload_document is transferred on the single-shot
path — one PUT of the entire body and a finalize PATCH — because no size
comparison selects the path; the caller picks the method. -/
theorem C4_counterexample :
    (List.replicate (PART_SIZE + 1) 37).length = PART_SIZE + 1 ∧
    uploadDocument (List.replicate (PART_SIZE + 1) 37) ⟨5, "u", "s3", []⟩ (.ok ()) (.ok .noneVal) =
      ([.postDoc none, .put "s3" [] (List.replicate (PART_SIZE + 1) 37), .patchDoc 5 "u"],
        .ok .noneVal) :=
  ⟨by simp, rfl⟩

/-- Claim C4 amended: the two transfer paths are selected by the caller, not
by a size comparison. The single-shot upload_document always issues one PUT
of the entire body (in particular for a file of exactly PART_SIZE bytes,
matching the claim), while upload_multipart_document always chunks at
PART_SIZE: a file of PART_SIZE + 1 bytes becomes exactly 2 parts of content
lengths [PART_SIZE, 1], and that manifest is what the creation POST carries. -/
theorem C4_upload_paths (f g : List Nat) (sc : SingleCreate) (pr : Except UpError SyncOut)
    (hf : f.length = PART_SIZE) (hg : g.length = PART_SIZE + 1) :
    (uploadDocument f sc (.ok ()) pr).1 =
      [.postDoc none, .put sc.put_url (headersMapOf sc.put_headers) f,
        .patchDoc sc.docId sc.uuid] ∧
    (chunkFile f).map (fun p => p.2.2.length) = [PART_SIZE] ∧
    (chunkFile g).map (fun p => p.2.2.length) = [PART_SIZE, 1] ∧
    manifestOf g = [(1, PART_SIZE), (2, 1)] := by
  refine ⟨rfl, ?_, ?_, ?_⟩
  · rw [chunkFile_exact_threshold f hf]
    simp [hf]
  · rw [chunkFile_threshold_plus_one g hg]
    simp [hg]
  · rw [manifestOf, chunkFile_threshold_plus_one g hg]
    simp [List.enum, List.enumFrom, hg]

/-- Witness for C4: concrete files of exactly the threshold and of one byte
more. -/
theorem C4_witness :
    (uploadDocument (List.replicate PART_SIZE 0) ⟨1, "v", "s3", []⟩ (.ok ()) (.ok .noneVal)).1 =
      [.postDoc none, .put "s3" [] (List.replicate PART_SIZE 0), .patchDoc 1 "v"] ∧
    (chunkFile (List.replicate PART_SIZE 0)).map (fun p => p.2.2.length) = [PART_SIZE] ∧
    (chunkFile (List.replicate (PART_SIZE + 1) 0)).map (fun p => p.2.2.length) = [PART_SIZE, 1] ∧
    manifestOf (List.replicate (PART_SIZE + 1) 0) = [(1, PART_SIZE), (2, 1)] :=
  C4_upload_paths (List.replicate PART_SIZE 0) (List.replicate (PART_SIZE + 1) 0)
    ⟨1, "v", "s3", []⟩ (.ok .noneVal) (by simp) (by simp)
